import Mathlib

/-!
Verification of the pattern-based static code analyzer and its result-caching
layer of the Github_AI_Analyzer repository.

The development shallowly embeds the Python sources:

* `app/agents/code_review_agent.py` — the static analyzer (`CodeReviewAgent`):
  regex-rule findings, complexity, dependencies, coverage estimation, and the
  report assembly in `analyze_code`.
* `app/utils/redis_manager.py` — the cache layer (`RedisManager`) with a
  primary backend and an in-process fallback map.
* `app/streamlit_app.py` (tab2) — the code-review orchestration: cache key,
  hit/miss handling.
* `app/core/model_manager.py` — usage counters (`track_usage`).

Python regular expressions (module `re`) are modelled by a small Brzozowski
derivative engine over an explicit first-order syntax `RE`; the source only
ever uses a match for (a) existence (`re.findall` truthiness, `re.search`)
and (b) match counting for a handful of deterministic patterns, which are
modelled by dedicated scanners.  Character classes are modelled at ASCII
precision (the source is only ever applied to source-code text).
-/

set_option linter.unusedVariables false

namespace GAA

/-- The whitespace class of `re` (`\s`), ASCII part. -/
def isWsChar (c : Char) : Bool :=
  c = ' ' || c = '\t' || c = '\n' || c = '\r' || c = '\x0b' || c = '\x0c'

/-- The word class of `re` (`\w`), ASCII part. -/
def isWordChar (c : Char) : Bool :=
  c.isAlphanum || c = '_'

/-- Character classes occurring in the patterns of `code_review_agent.py`. -/
inductive CClass where
  | lit (c : Char)
  | notChar (c : Char)
  | anyNoNl
  | ws
  | word
  | quote
  deriving DecidableEq

/-- Semantics of a character class. `anyNoNl` is the `.` of `re` (which does
not match a newline by default); `quote` is the class matching a single or a
double quote. -/
def CClass.matchesChar : CClass → Char → Bool
  | .lit c, a => a = c
  | .notChar c, a => a ≠ c
  | .anyNoNl, a => a ≠ '\n'
  | .ws, a => isWsChar a
  | .word, a => isWordChar a
  | .quote, a => a = '\'' || a = '"'

/-- Regular-expression syntax, first order so that equality is decidable. -/
inductive RE where
  | fail
  | eps
  | cls (c : CClass)
  | cat (a b : RE)
  | alt (a b : RE)
  | star (a : RE)
  deriving DecidableEq

/-- Nullability: does the expression accept the empty string. -/
def RE.nullable : RE → Bool
  | .fail => false
  | .eps => true
  | .cls _ => false
  | .cat a b => a.nullable && b.nullable
  | .alt a b => a.nullable || b.nullable
  | .star _ => true

/-- Smart concatenation, keeping derivatives small. -/
def mkCat (a b : RE) : RE :=
  match a, b with
  | .fail, _ => .fail
  | _, .fail => .fail
  | .eps, _ => b
  | _, .eps => a
  | _, _ => .cat a b

/-- Smart alternation, keeping derivatives small. -/
def mkAlt (a b : RE) : RE :=
  match a, b with
  | .fail, _ => b
  | _, .fail => a
  | _, _ => if a = b then a else .alt a b

/-- Brzozowski derivative. -/
def RE.deriv : RE → Char → RE
  | .fail, _ => .fail
  | .eps, _ => .fail
  | .cls c, a => if c.matchesChar a then .eps else .fail
  | .cat r s, a =>
      if r.nullable then mkAlt (mkCat (r.deriv a) s) (s.deriv a)
      else mkCat (r.deriv a) s
  | .alt r s, a => mkAlt (r.deriv a) (s.deriv a)
  | .star r, a => mkCat (r.deriv a) (.star r)

/-- Does some prefix of `cs` match `r`?  (The derivative of `RE.fail` is
`RE.fail`, so the recursion may cut off there.) -/
def RE.matchHere : RE → List Char → Bool
  | r, [] => r.nullable
  | r, c :: rest =>
      r.nullable ||
        (let d := r.deriv c
         if d = RE.fail then false else d.matchHere rest)

/-- Does some substring of `cs` match `r`?  This is the notion used for both
`re.search(p, s) is not None` and the truthiness of `re.findall(p, s)`:
either is equivalent to the existence of a matching substring, independent of
the leftmost-first preference of the backtracking engine. -/
def RE.searchIn : RE → List Char → Bool
  | r, [] => r.nullable
  | r, cs@(_ :: rest) => r.matchHere cs || r.searchIn rest

/-- `re.search(r, s) is not None` on a Lean string. -/
def reSearch (r : RE) (s : String) : Bool :=
  r.searchIn s.data

/-- Literal string as a regular expression (the escaped literals of the
source patterns, such as `eval\(` or `os\.system\(`). -/
def reStr (s : String) : RE :=
  s.data.foldr (fun c acc => RE.cat (.cls (.lit c)) acc) .eps

/-- `r+`. -/
def rePlus (r : RE) : RE := .cat r (.star r)

/-- `r` repeated exactly `n` times. -/
def reRep : Nat → RE → RE
  | 0, _ => .eps
  | n + 1, r => .cat r (reRep n r)

/-- `r{n,}`. -/
def reAtLeast (n : Nat) (r : RE) : RE := .cat (reRep n r) (.star r)

/-- `\s+`. -/
def wsP : RE := rePlus (.cls .ws)

/-- `\s*`. -/
def wsS : RE := .star (.cls .ws)

/-- `\w+`. -/
def wordP : RE := rePlus (.cls .word)

/-- `.*` (no newline). -/
def dotS : RE := .star (.cls .anyNoNl)

/-- Python `str.splitlines` restricted to the `\n` separator (the only line
separator occurring in the analyzed inputs): split at each newline and do not
produce a final empty line for a trailing newline. -/
def splitLinesCh : List Char → List (List Char)
  | [] => [[]]
  | c :: cs =>
      if c = '\n' then [] :: splitLinesCh cs
      else
        match splitLinesCh cs with
        | [] => [[c]]
        | l :: ls => (c :: l) :: ls

/-- `code.splitlines()` (see `splitLinesCh`). -/
def py_splitlines (s : String) : List String :=
  if s.data.isEmpty then []
  else
    let parts := splitLinesCh s.data
    (if s.data.getLast? = some '\n' then parts.dropLast else parts).map
      fun l => String.mk l

/-- Python `str.lower` at ASCII precision (per-character lowering; language
names are ASCII). -/
def py_lower (s : String) : String := String.mk (s.data.map Char.toLower)

/-- Strip a literal off the head of the input, or fail. -/
def dropLits : List Char → List Char → Option (List Char)
  | [], cs => some cs
  | _ :: _, [] => none
  | k :: ks, c :: cs => if c = k then dropLits ks cs else none

/-- One match of the control-structure pattern `kw\s*\([^)]*\)` at the head of
the input, returning the remaining input.  `\s*` and `\(`, as well as `[^)]*`
and `\)`, have disjoint character sets, so the backtracking match of `re` is
unique and equals this greedy scan. -/
def ctrlMatch (kw : List Char) (cs : List Char) : Option (List Char) :=
  match dropLits kw cs with
  | none => none
  | some r1 =>
      match r1.dropWhile isWsChar with
      | '(' :: r3 =>
          match r3.dropWhile (fun c => c ≠ ')') with
          | ')' :: r5 => some r5
          | _ => none
      | _ => none

/-- Count the non-overlapping matches of a deterministic pattern, scanning
left to right exactly as `re.findall` does: on a match, resume after it; on a
failure, advance one character.  (The fallback branch advancing one character
on an allegedly empty match also mirrors `re.findall`, which counts an empty
match and advances; the matchers used here never match empty.)  The recursion
is driven by a fuel argument so that it reduces by iota in the kernel; the
scanned list shrinks by at least one character per step, so a fuel equal to
the initial length (as supplied by `countScan`) is never exhausted. -/
def countScanF (m : List Char → Option (List Char)) : Nat → List Char → Nat
  | 0, _ => 0
  | _, [] => 0
  | fuel + 1, c :: tail =>
      match m (c :: tail) with
      | some rest =>
          if rest.length < tail.length + 1 then 1 + countScanF m fuel rest
          else 1 + countScanF m fuel tail
      | none => countScanF m fuel tail

def countScan (m : List Char → Option (List Char)) (cs : List Char) : Nat :=
  countScanF m cs.length cs

/-- Collect the captured groups of the non-overlapping matches of a
deterministic single-group pattern, scanning as `re.findall` does (fuel-driven
like `countScanF`). -/
def scanCaptureF (m : List Char → Option (String × List Char)) :
    Nat → List Char → List String
  | 0, _ => []
  | _, [] => []
  | fuel + 1, c :: tail =>
      match m (c :: tail) with
      | some (w, rest) =>
          if rest.length < tail.length + 1 then w :: scanCaptureF m fuel rest
          else w :: scanCaptureF m fuel tail
      | none => scanCaptureF m fuel tail

def scanCapture (m : List Char → Option (String × List Char))
    (cs : List Char) : List String :=
  scanCaptureF m cs.length cs

/-- The complexity record returned by `CodeReviewAgent._calculate_complexity`. -/
structure Complexity where
  cyclomatic : Nat
  cognitive : Nat
  maintainability : Nat
  deriving DecidableEq

/-- `CodeReviewAgent._calculate_complexity`: one count per control-structure
pattern `if\s*\([^)]*\)`, `for\s*\([^)]*\)`, `while\s*\([^)]*\)`,
`switch\s*\([^)]*\)`, `catch\s*\([^)]*\)` over the raw code, plus the
baseline 1; `cognitive` and `maintainability` stay 0.  The `language`
argument is accepted and ignored, exactly as in the source. -/
def calculate_complexity (code language : String) : Complexity :=
  let control_structures := ["if", "for", "while", "switch", "catch"]
  let cyc := control_structures.foldl
    (fun acc kw => acc + countScan (ctrlMatch kw.data) code.data) 0
  { cyclomatic := cyc + 1, cognitive := 0, maintainability := 0 }

/-! ## Rule tables and findings (`_check_security`, `_check_performance`,
`_check_maintainability`, `_find_line_numbers`) -/

/-- A finding dictionary as built by the three check methods. -/
structure Finding where
  type : String
  severity : String
  message : String
  line_numbers : List Nat
  deriving DecidableEq

/-- `security_patterns` of `CodeReviewAgent._check_security`, keyed by the
lower-cased language; unknown languages get no patterns. -/
def security_rules (language : String) : List (RE × String) :=
  if language = "python" then
    [(reStr "eval(", "Use of eval() is dangerous"),
     (reStr "exec(", "Use of exec() is dangerous"),
     (reStr "os.system(", "Use of os.system() is dangerous"),
     (reStr "subprocess.call(", "Use of subprocess.call() is dangerous"),
     (reStr "pickle.loads(", "Use of pickle.loads() is dangerous")]
  else if language = "javascript" then
    [(reStr "eval(", "Use of eval() is dangerous"),
     (.cat (reStr "new") (.cat wsP (reStr "Function(")),
       "Use of Function constructor is dangerous"),
     (.cat (reStr "innerHTML") (.cat wsS (reStr "=")),
       "Use of innerHTML is dangerous"),
     (reStr "document.write(", "Use of document.write() is dangerous")]
  else []

/-- `performance_patterns` of `CodeReviewAgent._check_performance`. -/
def performance_rules (language : String) : List (RE × String) :=
  if language = "python" then
    [(.cat (reStr "for") (.cat wsP (.cat dotS (.cat wsP
        (.cat (reStr "in") (.cat wsP (reStr "range(len(")))))),
       "Use enumerate() instead of range(len())"),
     (.cat (reStr "+") (.cat wsS (.cat (reStr "=") (.cat wsS
        (.cat (.cls .quote) (.cat wordP (.cls .quote)))))),
       "Use list comprehension or join() for string concatenation"),
     (.cat (reStr ".append(") (.cat dotS (.cat (reStr ")") (.cat wsS
        (.cat (reStr "for") (.cat wsP (.cat dotS (.cat wsP (reStr "in")))))))),
       "Use list comprehension instead of loop with append()")]
  else if language = "javascript" then
    [(.cat (reStr "for") (.cat wsS (.cat (reStr "(") (.cat wsS
        (.cat (reStr "var") (.cat wsP (reStr "i")))))),
       "Use let instead of var in for loops"),
     (.cat (reStr ".forEach(") (.cat wsS (.cat (reStr "function")
        (.cat wsS (reStr "(")))),
       "Use arrow function in forEach"),
     (reStr "document.getElementsBy",
       "Use querySelector for better performance")]
  else []

/-- `maintainability_patterns` of `CodeReviewAgent._check_maintainability`.
Note that `\s`, `\w` and `[^)]` all match a newline, so the two long-signature
patterns can match across line boundaries, while `.` cannot. -/
def maintainability_rules (language : String) : List (RE × String) :=
  if language = "python" then
    [(.cat (reStr "def") (.cat wsP (.cat wordP (.cat wsS (.cat (reStr "(")
        (.cat (reAtLeast 120 (.cls (.notChar ')'))) (reStr ")")))))),
       "Function signature is too long"),
     (.cat (reStr "if") (.cat dotS (.cat (.alt (reStr "and") (reStr "or"))
        (.cat dotS (.alt (reStr "and") (reStr "or"))))),
       "Complex conditional statement"),
     (.cat (reStr "global") (.cat wsP wordP), "Use of global variables")]
  else if language = "javascript" then
    [(.cat (reStr "function") (.cat wsS (.cat (reStr "(")
        (.cat (reAtLeast 120 (.cls (.notChar ')'))) (reStr ")")))),
       "Function signature is too long"),
     (.cat (reStr "if") (.cat dotS (.cat (reStr "&&")
        (.cat dotS (reStr "&&")))),
       "Complex conditional statement"),
     (.cat (reStr "var") (.cat wsP (.cat wordP (.cat wsS (.cat (reStr "=")
        (.cat wsS (reStr "function")))))),
       "Use const/let and arrow functions")]
  else []

/-- `CodeReviewAgent._find_line_numbers`: the 1-indexed numbers of the source
lines on which `re.search` finds the pattern. -/
def find_line_numbers (code : String) (r : RE) : List Nat :=
  (List.enumFrom 1 (py_splitlines code)).filterMap
    fun p => if reSearch r p.2 then some p.1 else none

/-- Common loop body of the three check methods: for every `(pattern,
message)` rule, if `re.findall(pattern, code)` is non-empty (equivalently, a
match exists), emit one finding with the per-category type and severity and
the matched line numbers. -/
def rule_findings (typ sev : String) (rules : List (RE × String))
    (code : String) : List Finding :=
  rules.filterMap fun pm =>
    if reSearch pm.1 code then
      some { type := typ, severity := sev, message := pm.2,
             line_numbers := find_line_numbers code pm.1 }
    else none

/-- `CodeReviewAgent._check_security` (severity fixed to high). -/
def check_security (code language : String) : List Finding :=
  rule_findings "security" "high" (security_rules (py_lower language)) code

/-- `CodeReviewAgent._check_performance` (severity fixed to medium). -/
def check_performance (code language : String) : List Finding :=
  rule_findings "performance" "medium" (performance_rules (py_lower language)) code

/-- `CodeReviewAgent._check_maintainability` (severity fixed to medium). -/
def check_maintainability (code language : String) : List Finding :=
  rule_findings "maintainability" "medium"
    (maintainability_rules (py_lower language)) code

/-! ## Dependencies and test-coverage estimation -/

/-- First-occurrence deduplication.  The source computes `list(set(deps))`,
whose iteration order is unspecified; the embedding fixes the order of first
occurrence.  No claim depends on the order of the deduplicated list. -/
def dedupFirst (seen : List String) : List String → List String
  | [] => []
  | x :: xs =>
      if seen.contains x then dedupFirst seen xs
      else x :: dedupFirst (x :: seen) xs

/-- One anchored match of `^(?:from|import)\s+(\w+)` for a single keyword:
the keyword at the start of the line, at least one whitespace, then the
captured word. -/
def importCapture (kw : String) (line : List Char) : Option String :=
  match dropLits kw.data line with
  | none => none
  | some r =>
      match r with
      | c :: _ =>
          if isWsChar c then
            let w := (r.dropWhile isWsChar).takeWhile isWordChar
            if w.isEmpty then none else some (String.mk w)
          else none
      | [] => none

/-- The single possible match of `^(?:from|import)\s+(\w+)` on one line
(`re.MULTILINE` anchors `^` at each line start; after a match the pattern
cannot match again before the next line). -/
def pyImportOnLine (line : List Char) : Option String :=
  match importCapture "from" line with
  | some w => some w
  | none => importCapture "import" line

/-- One match of `require\(['\"]([^'\"]+)['\"]\)` at the head of the input:
`require(`, an opening quote of either kind, at least one non-quote character
(captured), a closing quote of either kind, and `)`. -/
def requireCapture (cs : List Char) : Option (String × List Char) :=
  match dropLits "require(".data cs with
  | none => none
  | some r1 =>
      match r1 with
      | q :: r2 =>
          if q = '\'' || q = '"' then
            let cap := r2.takeWhile fun c => c ≠ '\'' && c ≠ '"'
            if cap.isEmpty then none
            else
              match r2.drop cap.length with
              | q2 :: ')' :: rest =>
                  if q2 = '\'' || q2 = '"' then some (String.mk cap, rest)
                  else none
              | _ => none
          else none
      | [] => none

/-- The quoted-module tail shared by the import pattern: an opening quote of
either kind, a non-empty capture, and a closing quote of either kind. -/
def quotedCapture (cs : List Char) : Option (String × List Char) :=
  match cs with
  | q :: r =>
      if q = '\'' || q = '"' then
        let cap := r.takeWhile fun c => c ≠ '\'' && c ≠ '"'
        if cap.isEmpty then none
        else
          match r.drop cap.length with
          | q2 :: rest =>
              if q2 = '\'' || q2 = '"' then some (String.mk cap, rest)
              else none
          | [] => none
      else none
  | [] => none

/-- One match of `import\s+(?:from\s+)?['\"]([^'\"]+)['\"]` at the head of
the input; the optional `from\s+` group is tried first, as the backtracking
engine does. -/
def importJsCapture (cs : List Char) : Option (String × List Char) :=
  match dropLits "import".data cs with
  | none => none
  | some r1 =>
      match r1 with
      | c :: _ =>
          if isWsChar c then
            let r2 := r1.dropWhile isWsChar
            let withFrom :=
              match dropLits "from".data r2 with
              | none => none
              | some r3 =>
                  match r3 with
                  | d :: _ =>
                      if isWsChar d then quotedCapture (r3.dropWhile isWsChar)
                      else none
                  | [] => none
            match withFrom with
            | some res => some res
            | none => quotedCapture r2
          else none
      | [] => none

/-- `CodeReviewAgent._extract_dependencies`.  For python, the multiline
anchored import pattern collects one module name per matching line; for
javascript, `require(...)` captures are followed by `import ...` captures;
the result is deduplicated (see `dedupFirst`). -/
def extract_dependencies (code language : String) : List String :=
  let deps :=
    if py_lower language = "python" then
      (splitLinesCh code.data).filterMap pyImportOnLine
    else if py_lower language = "javascript" then
      scanCapture requireCapture code.data ++ scanCapture importJsCapture code.data
    else []
  dedupFirst [] deps

/-- The coverage record of `CodeReviewAgent._estimate_test_coverage`. -/
structure Coverage where
  unit_tests : Nat
  integration_tests : Nat
  total_coverage : Nat
  deriving DecidableEq

/-- Strip a literal case-insensitively (the `re.IGNORECASE` flag used by the
coverage patterns). -/
def dropLitsCI : List Char → List Char → Option (List Char)
  | [], cs => some cs
  | _ :: _, [] => none
  | k :: ks, c :: cs => if c.toLower = k.toLower then dropLitsCI ks cs else none

/-- One case-insensitive match of a literal pattern, for `countScan`. -/
def covLit (lit : String) (cs : List Char) : Option (List Char) :=
  dropLitsCI lit.data cs

/-- One case-insensitive match of `a\s+b` (such as `def\s+test_`), for
`countScan`. -/
def covKwKw (a b : String) (cs : List Char) : Option (List Char) :=
  match dropLitsCI a.data cs with
  | none => none
  | some r =>
      match r with
      | c :: _ =>
          if isWsChar c then dropLitsCI b.data (r.dropWhile isWsChar)
          else none
      | [] => none

/-- `CodeReviewAgent._estimate_test_coverage`: `unit_tests` sums the counts
of the per-language test-indicator patterns (case-insensitive), and
`total_coverage = min(100, unit_tests * 10)` when any test indicator was
seen. -/
def estimate_test_coverage (code language : String) : Coverage :=
  let pats : List (List Char → Option (List Char)) :=
    if py_lower language = "python" then
      [covKwKw "def" "test_", covKwKw "class" "Test",
       covLit "pytest", covLit "unittest"]
    else if py_lower language = "javascript" then
      [covLit "test(", covLit "describe(", covLit "it(", covLit "jest"]
    else []
  let unit := pats.foldl (fun acc m => acc + countScan m code.data) 0
  { unit_tests := unit, integration_tests := 0,
    total_coverage := if unit > 0 then min 100 (unit * 10) else 0 }

/-! ## Report assembly (`analyze_code`) -/

/-- JSON values, as produced by `json.loads` on the completion response.
Numerals are modelled as integers (no claim involves numeric model output). -/
inductive JVal where
  | null
  | bool (b : Bool)
  | num (n : Int)
  | str (s : String)
  | arr (elems : List JVal)
  | obj (fields : List (String × JVal))

/-- Lookup in an association list (used for Python dictionaries: keys are
unique, first match wins). -/
def alLookup {α : Type} : List (String × α) → String → Option α
  | [], _ => none
  | (k, v) :: rest, key => if k = key then some v else alLookup rest key

/-- `d.get(key, default)` on a parsed JSON object. -/
def jGet (o : List (String × JVal)) (key : String) (d : JVal) : JVal :=
  (alLookup o key).getD d

/-- `CodeReviewAgent._extract_metrics`. -/
structure Metrics where
  lines_of_code : Nat
  complexity : Complexity
  dependencies : List String
  test_coverage : Coverage

def extract_metrics (code language : String) : Metrics :=
  { lines_of_code := (py_splitlines code).length,
    complexity := calculate_complexity code language,
    dependencies := extract_dependencies code language,
    test_coverage := estimate_test_coverage code language }

/-- The `results` dictionary built by `CodeReviewAgent.analyze_code` on the
non-error path. -/
structure AnalysisResults where
  timestamp : String
  language : String
  metrics : Metrics
  complexity : Complexity
  dependencies : List String
  test_coverage : Coverage
  security_issues : List Finding
  performance_issues : List Finding
  maintainability : List Finding
  quality_issues : JVal
  security_vulnerabilities : JVal
  performance_optimizations : JVal
  best_practices : JVal
  improvement_suggestions : JVal
  structure_analysis : JVal

/-- The value returned by `CodeReviewAgent.analyze_code`: either the full
results dictionary, or — when an exception is caught by its `except` clause —
a dictionary holding exactly an `error` text and a `timestamp`.  The two
shapes are distinguished solely by the presence of the `error` key, which
this inductive renders as its two constructors. -/
inductive AnalyzeResult where
  | ok (r : AnalysisResults)
  | err (error : String) (timestamp : String)

/-- Environment of one `analyze_code` invocation, collecting the behavior of
the external collaborators (spec section 6) and of the runtime:

* `now` — the `datetime.now().isoformat()` timestamp of this invocation;
* `completion` — the outcome of the completion-model call
  `model_manager.get_completion(...)`: a response text or a raised exception.
  (In the source as shipped the call always raises `AttributeError`, since
  `ModelManager` defines no `get_completion`; the environment also covers the
  collaborator behavior the spec describes, such as a timeout.)
* `parse` — the behavior of `json.loads` on the response text: a JSON value,
  or `none` for unparseable content;
* `fault` — an unexpected exception raised inside the `try` block of
  `analyze_code` by the runtime or the UI collaborator, if any (the
  catastrophic case of spec section 7). -/
structure AnalyzeEnv where
  now : String
  completion : Except String String
  parse : String → Option JVal
  fault : Option String

/-- Did the completion call fail or return unparseable content? -/
def AnalyzeEnv.modelCallFailed (env : AnalyzeEnv) : Bool :=
  match env.completion with
  | .error _ => true
  | .ok s => (env.parse s).isNone

/-- `CodeReviewAgent._get_model_analysis`: `json.loads` of the completion
response; any exception (from the call or the parse) is caught and yields the
empty dictionary. -/
def get_model_analysis (env : AnalyzeEnv) : JVal :=
  match env.completion with
  | .error _ => .obj []
  | .ok s =>
      match env.parse s with
      | none => .obj []
      | some v => v

/-- The error text of the `AttributeError` raised when the parsed model
output is not a dictionary and `_extract_quality_issues` calls `.get` on it
(this exception is caught by the outer `except` of `analyze_code`). -/
def attrErrText : String := "AttributeError: object has no attribute get"

/-- `CodeReviewAgent.analyze_code`.  On the happy path it assembles the
results dictionary from the local analyzers and the `_extract_*` accessors
over the model output (each a `.get` with an empty default); any exception
raised inside the `try` block — an injected fault, or the `AttributeError`
from `.get` on a non-dictionary model output — is caught and replaced by the
`(error, timestamp)` dictionary.  Logging, the UI spinner, and the usage
tracking side effect are not modelled (the returned value does not depend on
them). -/
def analyze_code (env : AnalyzeEnv) (code language : String) : AnalyzeResult :=
  match env.fault with
  | some e => .err e env.now
  | none =>
      match get_model_analysis env with
      | .obj o =>
          .ok
            { timestamp := env.now
              language := language
              metrics := extract_metrics code language
              complexity := calculate_complexity code language
              dependencies := extract_dependencies code language
              test_coverage := estimate_test_coverage code language
              security_issues := check_security code language
              performance_issues := check_performance code language
              maintainability := check_maintainability code language
              quality_issues := jGet o "quality_issues" (.arr [])
              security_vulnerabilities :=
                jGet o "security_vulnerabilities" (.arr [])
              performance_optimizations := jGet o "performance_issues" (.arr [])
              best_practices := jGet o "best_practices" (.arr [])
              improvement_suggestions :=
                jGet o "improvement_suggestions" (.arr [])
              structure_analysis := jGet o "structure_analysis" (.obj []) }
      | _ => .err attrErrText env.now

/-! ## Cache layer (`app/utils/redis_manager.py`)

The primary backend (the external `redis` client, spec section 6) is modelled
at the interface boundary: it holds the stored key-value pairs (the
`json.dumps`/`json.loads` round trip through the wire format is modelled at
the value level, which is faithful for JSON-serializable values), and a
`failing` switch makes every call raise, modelling connection errors and
timeouts.  The manager is generic in the stored value type. -/

/-- The external primary cache backend. -/
structure Backend (α : Type) where
  store : List (String × α)
  failing : Bool

/-- Insert with Python-dictionary semantics: replace the binding if the key
is present, append otherwise. -/
def alInsert {α : Type} : List (String × α) → String → α → List (String × α)
  | [], key, v => [(key, v)]
  | (k, w) :: rest, key, v =>
      if k = key then (key, v) :: rest else (k, w) :: alInsert rest key v

/-- The four sub-maps of `self.memory_cache`. -/
structure MemoryCache (α : Type) where
  analysis_results : List (String × α)
  code_analysis : List (String × α)
  web_tests : List (String × α)
  user_preferences : List (String × α)

/-- The `RedisManager` state: the backend handle, the availability flag
recorded once at construction, and the in-process fallback maps. -/
structure RedisManager (α : Type) where
  redis : Backend α
  redis_available : Bool
  memory_cache : MemoryCache α

/-- `RedisManager._store_in_redis`: when the availability flag is set, write
to the backend and report success; an exception from the backend (`set` or
`expire`) is caught and reported as failure; when the flag is unset, report
failure without touching the backend.  The TTL effect of `expire` is not
modelled (no clock); `store_code_analysis` always passes `expires=None`. -/
def RedisManager.store_in_redis {α : Type} (m : RedisManager α) (key : String)
    (value : α) (expires : Option Nat) : Bool × RedisManager α :=
  if m.redis_available then
    if m.redis.failing then (false, m)
    else
      (true,
       { m with redis := { m.redis with store := alInsert m.redis.store key value } })
  else (false, m)

/-- `RedisManager._get_from_redis`: when the availability flag is set, read
from the backend, treating a raised exception as no data; otherwise `None`.
(A stored JSON `null` would also be returned as `None`; no caller stores
`null`, and no claim depends on it.) -/
def RedisManager.get_from_redis {α : Type} (m : RedisManager α) (key : String) :
    Option α :=
  if m.redis_available then
    if m.redis.failing then none
    else alLookup m.redis.store key
  else none

/-- `RedisManager.store_code_analysis`: build the namespaced key, attempt the
primary write, and on failure write the raw `code_id` binding into the
fallback map; always returns `True`. -/
def RedisManager.store_code_analysis {α : Type} (m : RedisManager α)
    (code_id : String) (results : α) : Bool × RedisManager α :=
  let key := "code_analysis:" ++ code_id
  let res := m.store_in_redis key results none
  if res.1 then (true, res.2)
  else
    (true,
     { res.2 with
        memory_cache :=
          { res.2.memory_cache with
             code_analysis :=
               alInsert res.2.memory_cache.code_analysis code_id results } })

/-- `RedisManager.get_code_analysis`: primary lookup under the namespaced
key; if it yields nothing, fall back to the in-process map under the raw
`code_id`; absence is the `none` result. -/
def RedisManager.get_code_analysis {α : Type} (m : RedisManager α)
    (code_id : String) : Option α :=
  let key := "code_analysis:" ++ code_id
  match m.get_from_redis key with
  | some v => some v
  | none => alLookup m.memory_cache.code_analysis code_id

/-! ## Usage counters (`ModelManager.track_usage`) and the code-review tab
(`app/streamlit_app.py`, tab2) -/

/-- One usage record of `self.model_usage`. -/
structure UsageStat where
  total_tokens : Int
  requests : Int
  deriving DecidableEq

/-- `ModelManager.track_usage`: initialize the per-task record if absent,
then add the token count and bump the request count. -/
def track_usage (usage : List (String × UsageStat)) (task_type : String)
    (tokens_used : Int) : List (String × UsageStat) :=
  let cur := (alLookup usage task_type).getD { total_tokens := 0, requests := 0 }
  alInsert usage task_type
    { total_tokens := cur.total_tokens + tokens_used,
      requests := cur.requests + 1 }

/-- The module-level mutable state the code-review tab touches: the cache
manager and the model-usage counters. -/
structure AppState (α : Type) where
  rm : RedisManager α
  usage : List (String × UsageStat)

/-- The text of the `TypeError` raised by the miss branch of the code-review
tab: `code_review_agent.analyze_code(code_input)` omits the required
positional `language` argument of
`CodeReviewAgent.analyze_code(self, code, language, context=None)`, so the
call raises before any coroutine is created (and is not awaited either). -/
def tab2TypeErrText : String :=
  "TypeError: analyze_code() missing 1 required positional argument: language"

/-- The code-review handler of tab2 for one button press, as written in
`app/streamlit_app.py` lines 146-164.  `pyhash` is the process-salted Python
builtin `hash` on strings; the handler applies it to the entered code only.
An empty input only shows a warning.  On a cache hit the cached value is
displayed unchanged.  On a miss the handler calls
`code_review_agent.analyze_code(code_input)`, which raises a `TypeError`
(see `tab2TypeErrText`); the exception propagates (there is no `try` in the
tab), so neither the store nor any usage tracking runs and the state is
returned unchanged.  (The truthiness test `if cached_analysis:` is modelled
as presence; every value this flow could cache is a non-empty dictionary.) -/
def tab2_code_review {α : Type} (pyhash : String → Int) (app : AppState α)
    (code_input : String) : Except String (Option α) × AppState α :=
  if code_input = "" then (.ok none, app)
  else
    let code_id := toString (pyhash (code_input))
    match app.rm.get_code_analysis code_id with
    | some cached => (.ok (some cached), app)
    | none => (.error tab2TypeErrText, app)

/-- The cache-sample data model of the spec (section 3). -/
structure CodeSample where
  content : String
  language : String
  deriving DecidableEq

/-- The cache identity the code-review tab computes for a sample: the builtin
hash of the entered code.  The tab has no language input; the identity reads
`content` only (`code_id = hash(code_input)`, line 150). -/
def tab2_cache_key (pyhash : String → Int) (sample : CodeSample) : String :=
  toString (pyhash sample.content)

/-- A concrete stand-in for the process-salted builtin string hash, used only
to instantiate closed statements; every theorem about the cache identity
holds for an arbitrary `pyhash`. -/
def hash0 (s : String) : Int := s.length

/-! ## Helper lemmas -/

theorem alLookup_alInsert_self {α : Type} (l : List (String × α)) (k : String)
    (v : α) : alLookup (alInsert l k v) k = some v := by
  induction l with
  | nil => simp [alInsert, alLookup]
  | cons hd tl ih =>
      obtain ⟨k0, v0⟩ := hd
      by_cases h : k0 = k
      · simp [alInsert, h, alLookup]
      · simp [alInsert, h, alLookup, ih]

theorem lineNums_lower (p : String → Bool) :
    ∀ (l : List String) (k m : Nat),
      m ∈ (List.enumFrom k l).filterMap
        (fun q => if p q.2 then some q.1 else none) →
      k ≤ m := by
  intro l
  induction l with
  | nil => intro k m h; simp [List.enumFrom] at h
  | cons x xs ih =>
      intro k m h
      by_cases hp : p x
      · simp only [List.enumFrom, List.filterMap_cons, hp, if_true] at h
        rcases List.mem_cons.mp h with h1 | h2
        · omega
        · have := ih (k + 1) m h2
          omega
      · simp only [List.enumFrom, List.filterMap_cons, hp, if_false,
          Bool.false_eq_true] at h
        have := ih (k + 1) m h
        omega

theorem lineNums_pairwise (p : String → Bool) :
    ∀ (l : List String) (k : Nat),
      ((List.enumFrom k l).filterMap
        (fun q => if p q.2 then some q.1 else none)).Pairwise (· < ·) := by
  intro l
  induction l with
  | nil => intro k; simp [List.enumFrom]
  | cons x xs ih =>
      intro k
      by_cases hp : p x
      · simp only [List.enumFrom, List.filterMap_cons, hp, if_true]
        refine List.Pairwise.cons ?_ (ih (k + 1))
        intro m hm
        have := lineNums_lower p xs (k + 1) m hm
        omega
      · simp only [List.enumFrom, List.filterMap_cons, hp, if_false,
          Bool.false_eq_true]
        exact ih (k + 1)

theorem find_line_numbers_pairwise (code : String) (r : RE) :
    (find_line_numbers code r).Pairwise (· < ·) :=
  lineNums_pairwise (fun line => reSearch r line) (py_splitlines code) 1

theorem rule_findings_sorted (typ sev code : String) (rules : List (RE × String))
    (f : Finding) (hf : f ∈ rule_findings typ sev rules code) :
    f.line_numbers.Pairwise (· < ·) := by
  rcases List.mem_filterMap.mp hf with ⟨pm, hpm, heq⟩
  by_cases hs : reSearch pm.1 code
  · rw [if_pos hs] at heq
    cases heq
    exact find_line_numbers_pairwise code pm.1
  · rw [if_neg hs] at heq
    cases heq

/-! ## Claim theorems -/

/-- Fixed inputs used by the concrete instantiations below. -/
def envFail : AnalyzeEnv :=
  { now := "2024-01-01T00:00:00", completion := .error "TimeoutError",
    parse := fun _ => none, fault := none }

def envBoom : AnalyzeEnv :=
  { now := "2024-01-01T00:00:00", completion := .ok "x",
    parse := fun _ => some (.obj []), fault := some "boom" }

/-- A manager whose primary backend was unavailable at construction. -/
def rmNoRedis : RedisManager JVal :=
  { redis := { store := [], failing := false }, redis_available := false,
    memory_cache :=
      { analysis_results := [], code_analysis := [], web_tests := [],
        user_preferences := [] } }

/-- A JSON-serialized analysis report value. -/
def reportVal : JVal :=
  .obj [("timestamp", .str "2024-01-01T00:00:00"), ("language", .str "python")]

/-- A manager whose backend connected at construction but raises on every
later call. -/
def rmFailing : RedisManager JVal :=
  { redis := { store := [], failing := true }, redis_available := true,
    memory_cache :=
      { analysis_results := [], code_analysis := [("42", reportVal)],
        web_tests := [], user_preferences := [] } }

/-- A manager with a healthy primary backend. -/
def rmHealthy : RedisManager JVal :=
  { redis := { store := [], failing := false }, redis_available := true,
    memory_cache :=
      { analysis_results := [], code_analysis := [("old", .str "o")],
        web_tests := [], user_preferences := [] } }

/-- A fresh application state for the code-review tab (empty caches and
counters). -/
def freshApp : AppState JVal := { rm := rmNoRedis, usage := [] }

/-- C1.  If the completion-model call fails or its response is unparseable
(and no unrelated exception is raised), `analyze_code` returns the full
report in which every model-derived field (`quality_issues`,
`security_vulnerabilities`, `performance_optimizations`, `best_practices`,
`improvement_suggestions`, `structure_analysis`) is the empty default, while
every locally computed field is exactly what the local analyzers produce —
the local findings are never suppressed by the remote failure. -/
theorem analyze_code_model_failure_defaults (env : AnalyzeEnv)
    (code language : String) (hfault : env.fault = none)
    (hfail : env.modelCallFailed = true) :
    analyze_code env code language = .ok
      { timestamp := env.now
        language := language
        metrics := extract_metrics code language
        complexity := calculate_complexity code language
        dependencies := extract_dependencies code language
        test_coverage := estimate_test_coverage code language
        security_issues := check_security code language
        performance_issues := check_performance code language
        maintainability := check_maintainability code language
        quality_issues := .arr []
        security_vulnerabilities := .arr []
        performance_optimizations := .arr []
        best_practices := .arr []
        improvement_suggestions := .arr []
        structure_analysis := .obj [] } := by
  have hGMA : get_model_analysis env = .obj [] := by
    cases hc : env.completion with
    | error e => simp [get_model_analysis, hc]
    | ok s =>
        cases hp : env.parse s with
        | none => simp [get_model_analysis, hc, hp]
        | some v =>
            exfalso
            simp [AnalyzeEnv.modelCallFailed, hc, hp] at hfail
  simp only [analyze_code, hfault, hGMA]
  rfl

/-- Witness for C1: a timeout of the completion collaborator on the sample
`eval(x)`; the model-derived fields are empty while the local security
finding machinery still runs. -/
theorem analyze_code_model_failure_defaults_witness :
    analyze_code envFail "eval(x)" "python" = .ok
      { timestamp := envFail.now
        language := "python"
        metrics := extract_metrics "eval(x)" "python"
        complexity := calculate_complexity "eval(x)" "python"
        dependencies := extract_dependencies "eval(x)" "python"
        test_coverage := estimate_test_coverage "eval(x)" "python"
        security_issues := check_security "eval(x)" "python"
        performance_issues := check_performance "eval(x)" "python"
        maintainability := check_maintainability "eval(x)" "python"
        quality_issues := .arr []
        security_vulnerabilities := .arr []
        performance_optimizations := .arr []
        best_practices := .arr []
        improvement_suggestions := .arr []
        structure_analysis := .obj [] } :=
  analyze_code_model_failure_defaults envFail "eval(x)" "python" rfl rfl

/-- C2.  Any exception raised while the report is being constructed is caught
by the `except` clause of `analyze_code`, which returns the dictionary
holding exactly the error text and a timestamp (the `err` shape of
`AnalyzeResult`, distinguished from a normal report solely by the `error`
key); the exception is never propagated to the caller. -/
theorem analyze_code_fault_error_report (env : AnalyzeEnv)
    (code language e : String) (h : env.fault = some e) :
    analyze_code env code language = .err e env.now := by
  simp only [analyze_code, h]

/-- Witness for C2: an injected exception during report construction. -/
theorem analyze_code_fault_error_report_witness :
    analyze_code envBoom "x = 1" "python" = .err "boom" envBoom.now :=
  analyze_code_fault_error_report envBoom "x = 1" "python" "boom" rfl

/-- Counterexample for C3.  Two samples with identical content and different
languages resolve to the same cache entry: the identity the code-review tab
computes (`code_id = hash(code_input)`) reads only the content.  (The
equality holds for every hash function; `hash0` is a fixed stand-in.) -/
theorem tab2_cache_key_ignores_language_cex :
    (CodeSample.mk "x = 1" "python").language ≠
      (CodeSample.mk "x = 1" "javascript").language ∧
    tab2_cache_key hash0 (CodeSample.mk "x = 1" "python") =
      tab2_cache_key hash0 (CodeSample.mk "x = 1" "javascript") :=
  ⟨by decide, rfl⟩

/-- C3 as amended.  The cache identity of the code-review flow is computed
from the sample content alone (the builtin hash of the entered code); the
language plays no role, so any two samples with identical content resolve to
the same cache entry, whatever their languages. -/
theorem tab2_cache_key_content_only (pyhash : String → Int)
    (s1 s2 : CodeSample) (h : s1.content = s2.content) :
    tab2_cache_key pyhash s1 = tab2_cache_key pyhash s2 := by
  simp only [tab2_cache_key, h]

/-- Witness for the amended C3. -/
theorem tab2_cache_key_content_only_witness :
    tab2_cache_key hash0 (CodeSample.mk "x = 1" "python") =
      tab2_cache_key hash0 (CodeSample.mk "x = 1" "javascript") :=
  tab2_cache_key_content_only hash0 (CodeSample.mk "x = 1" "python")
    (CodeSample.mk "x = 1" "javascript") rfl

/-- C4.  When the primary backend is unavailable (the availability flag
recorded at construction is false), `store_code_analysis` reports success and
`get_code_analysis` returns the stored value unchanged, served from the
in-process fallback map. -/
theorem store_then_get_on_unavailable {α : Type} (m : RedisManager α)
    (code_id : String) (v : α) (h : m.redis_available = false) :
    (m.store_code_analysis code_id v).1 = true ∧
    ((m.store_code_analysis code_id v).2).get_code_analysis code_id = some v := by
  constructor
  · simp [RedisManager.store_code_analysis, RedisManager.store_in_redis, h]
  · simp [RedisManager.store_code_analysis, RedisManager.store_in_redis,
      RedisManager.get_code_analysis, RedisManager.get_from_redis, h,
      alLookup_alInsert_self]

/-- Witness for C4: a report value round-trips through the fallback map. -/
theorem store_then_get_on_unavailable_witness :
    (rmNoRedis.store_code_analysis "42" reportVal).1 = true ∧
    ((rmNoRedis.store_code_analysis "42" reportVal).2).get_code_analysis "42" =
      some reportVal :=
  store_then_get_on_unavailable rmNoRedis "42" reportVal rfl

/-- C5.  When every primary-backend call raises, `get_code_analysis` handles
the error identically to a miss: it returns exactly the fallback-map lookup,
and absence is the `none` result — the operation is total, no exception
reaches the caller. -/
theorem get_degrades_on_backend_error {α : Type} (m : RedisManager α)
    (code_id : String) (h : m.redis.failing = true) :
    m.get_code_analysis code_id =
      alLookup m.memory_cache.code_analysis code_id := by
  unfold RedisManager.get_code_analysis RedisManager.get_from_redis
  by_cases ha : m.redis_available <;> simp [ha, h]

/-- Witness for C5: a raising backend with a fallback-map entry. -/
theorem get_degrades_on_backend_error_witness :
    rmFailing.get_code_analysis "42" =
      alLookup rmFailing.memory_cache.code_analysis "42" :=
  get_degrades_on_backend_error rmFailing "42" rfl

/-- C6 (code evaluated at the failing input).  With an empty cache, the
code-review tab raises a `TypeError` on its first invocation — the miss
branch calls `analyze_code(code_input)` without the required `language`
argument — and leaves the state unchanged, so the second invocation with the
identical content raises again instead of hitting the cache: no report, no
timestamp and no usage-counter change is ever produced by this flow. -/
theorem tab2_invocations_raise_type_error :
    tab2_code_review hash0 freshApp "print(1)" =
      (.error tab2TypeErrText, freshApp) ∧
    tab2_code_review hash0 (tab2_code_review hash0 freshApp "print(1)").2
      "print(1)" = (.error tab2TypeErrText, freshApp) :=
  ⟨rfl, rfl⟩

/-- C7 (code evaluated at the failing input).  On an input with exactly three
Python-style `if` statements and one `for` loop, the computed cyclomatic
complexity is 1, not 5: every control-structure pattern requires a
parenthesized condition head (`if (...)`, `for (...)`), which Python syntax
does not produce.  (The repository test `test_calculate_complexity` asserts
a value greater than 1 on just such input.) -/
theorem calculate_complexity_python_style_cex :
    (calculate_complexity
      "if a:\n    x = 1\nif b:\n    x = 2\nif c:\n    x = 3\nfor i in items:\n    x = 4\n"
      "python").cyclomatic = 1 ∧
    (calculate_complexity
      "if a:\n    x = 1\nif b:\n    x = 2\nif c:\n    x = 3\nfor i in items:\n    x = 4\n"
      "python").cyclomatic ≠ 5 :=
  ⟨rfl, by decide⟩

/-- Counterexample for C8.  A finding whose pattern matches the code as a
whole but no individual source line is emitted with an empty `line_numbers`
list: the long-signature pattern matches across the line boundary of a
two-line function signature (`\s`, `\w` and `[^)]` all match a newline),
while neither line matches on its own. -/
theorem check_maintainability_empty_line_numbers_cex :
    (check_maintainability
      ("def f(" ++ "\n" ++ String.mk (List.replicate 120 'a') ++ ")")
      "python").map Finding.line_numbers = [[]] := rfl

/-- C8 as amended.  Every finding emitted by the security, performance and
maintainability checks has its `line_numbers` sorted strictly ascending;
the list may however be empty, when the pattern matches the code only across
line boundaries. -/
theorem finding_line_numbers_sorted (code language : String) (f : Finding)
    (hf : f ∈ check_security code language ++ check_performance code language
      ++ check_maintainability code language) :
    f.line_numbers.Pairwise (· < ·) := by
  unfold check_security check_performance check_maintainability at hf
  rcases List.mem_append.mp hf with h | h
  · rcases List.mem_append.mp h with h1 | h2
    · exact rule_findings_sorted _ _ _ _ _ h1
    · exact rule_findings_sorted _ _ _ _ _ h2
  · exact rule_findings_sorted _ _ _ _ _ h

/-- Witness for the amended C8: the `eval` finding on `eval(x)`. -/
theorem finding_line_numbers_sorted_witness :
    (Finding.mk "security" "high" "Use of eval() is dangerous" [1]).line_numbers.Pairwise
      (· < ·) :=
  finding_line_numbers_sorted "eval(x)" "python"
    (Finding.mk "security" "high" "Use of eval() is dangerous" [1]) (by decide)

/-- C9.  The complexity computation is independent of its language argument:
one fixed control-structure pattern table is applied whatever the language,
supported or not. -/
theorem calculate_complexity_language_independent (code l1 l2 : String) :
    calculate_complexity code l1 = calculate_complexity code l2 := rfl

/-- C10.  When the primary-backend write succeeds, `store_code_analysis`
leaves the whole in-process fallback map (all four sub-maps) unchanged: the
fallback is written only on primary-write failure, so the two stores are not
kept in sync. -/
theorem store_success_preserves_fallback {α : Type} (m : RedisManager α)
    (code_id : String) (v : α) (h1 : m.redis_available = true)
    (h2 : m.redis.failing = false) :
    ((m.store_code_analysis code_id v).2).memory_cache = m.memory_cache := by
  simp [RedisManager.store_code_analysis, RedisManager.store_in_redis, h1, h2]

/-- Witness for C10: a successful primary write leaves the pre-existing
fallback entry untouched. -/
theorem store_success_preserves_fallback_witness :
    ((rmHealthy.store_code_analysis "42" reportVal).2).memory_cache =
      rmHealthy.memory_cache :=
  store_success_preserves_fallback rmHealthy "42" reportVal rfl rfl

end GAA
